import Mathlib

/-!
# Airflow installation script: a model of `installation-script.go`

The Go program is a straight-line provisioning script.  Every function of the
source is embedded under its own name:

* pure string code (`trimNewline`, the `fmt.Sprintf` calls, the `text/template`
  rendering) becomes a Lean function on `String`;
* reading standard input is explicit state passing on a `Reader`;
* a function with side effects becomes the list of the effectful calls it makes,
  in program order (`Action`), and `run` gives those lists their meaning: the
  calls are performed one after the other and `log.Fatalf` inside `runCmd`
  stops the process at the first external command that fails.

Go strings are byte strings.  They are modelled by Lean strings; the only bytes
the program inspects are ASCII (`\r`, `\n`), which never occur inside a
multi-byte UTF-8 sequence.
-/

namespace Installer

/-! ## Library functions used by the script -/

/-- Go `strings.TrimRight(s, cutset)`: the loop
`for len(s) > 0 && cutset contains s[len(s)-1] { s = s[:len(s)-1] }`,
i.e. the longest trailing run of cutset characters is dropped. -/
def TrimRight (s cutset : String) : String :=
  ⟨s.data.rdropWhile (fun c => cutset.data.contains c)⟩

/-- Text that `fmt.Sprintf` appends when operands are left over. -/
def extraOperands (args : List String) : List Char :=
  "%!(EXTRA ".data ++ (", ".intercalate (args.map (fun a => "string=" ++ a))).data ++ [')']

/-- Go `fmt.Sprintf` on string operands.  The script uses the verbs `%s` and
`%v`, which print the next operand as it is, and `%%`, which prints a percent
sign; every other byte of the format is copied.  A verb without an operand, a
format ending in a percent sign and left-over operands are reported as Go
reports them.  Any other verb is printed in Go's bad-verb form: flags, widths
and the other verbs that Go defines for strings are outside the model. -/
def sprintfAux : List Char → List String → List Char
  | [], [] => []
  | [], a :: as => extraOperands (a :: as)
  | c :: fs, args =>
    if c = '%' then
      match fs, args with
      | [], _ => "%!(NOVERB)".data
      | v :: fs1, args =>
        if v = '%' then '%' :: sprintfAux fs1 args
        else
          match args with
          | [] => "%!".data ++ [v] ++ "(MISSING)".data ++ sprintfAux fs1 []
          | a :: as =>
            if v = 's' ∨ v = 'v' then a.data ++ sprintfAux fs1 as
            else "%!".data ++ [v] ++ "(string=".data ++ a.data ++ [')'] ++ sprintfAux fs1 as
    else c :: sprintfAux fs args

/-- Go `fmt.Sprintf(format, args...)` with string operands. -/
def Sprintf (format : String) (args : List String) : String :=
  ⟨sprintfAux format.data args⟩

/-! ## Standard input -/

/-- The state of `bufio.NewReader(os.Stdin)`: the bytes not yet consumed.  When
they run out, every further read reports the error `io.EOF`. -/
structure Reader where
  pending : List Char
  deriving DecidableEq, Repr

/-- Result of one `ReadString` call: the data returned, the error (if any) and
the reader afterwards. -/
structure ReadResult where
  line : String
  err : Option String
  reader : Reader
  deriving DecidableEq, Repr

/-- Scan for the delimiter: the bytes up to and including the first delimiter
and the bytes after it, or all the bytes and `none` when there is no delimiter. -/
def readUntil (delim : Char) : List Char → List Char × Option (List Char)
  | [] => ([], none)
  | c :: cs =>
    if c = delim then ([c], some cs)
    else ((c :: (readUntil delim cs).1), (readUntil delim cs).2)

/-- Go `(*bufio.Reader).ReadString(delim)`: returns the data up to and including
the first occurrence of the delimiter; if the input ends before a delimiter is
found it returns the data read so far together with the error `io.EOF`. -/
def Reader.ReadString (r : Reader) (delim : Char) : ReadResult :=
  match (readUntil delim r.pending).2 with
  | some rest => { line := ⟨(readUntil delim r.pending).1⟩, err := none, reader := ⟨rest⟩ }
  | none => { line := ⟨(readUntil delim r.pending).1⟩, err := some "EOF", reader := ⟨[]⟩ }

/-! ## The configuration record -/

/-- Go `type Config struct`. -/
structure Config where
  SupervisorSockPath : String
  SupervisorLogPath : String
  SupervisorDir : String
  AirflowHome : String
  AirflowEnv : String
  AirflowUser : String
  AirflowPort : String
  LogDir : String
  DBType : String
  DBUser : String
  DBPassword : String
  AirflowVer : String
  PythonVer : String
  deriving DecidableEq, Repr

/-- Field lookup by name, as `text/template` does it by reflection for `.Name`. -/
def Config.field (cfg : Config) (name : String) : Option String :=
  if name = "SupervisorSockPath" then some cfg.SupervisorSockPath
  else if name = "SupervisorLogPath" then some cfg.SupervisorLogPath
  else if name = "SupervisorDir" then some cfg.SupervisorDir
  else if name = "AirflowHome" then some cfg.AirflowHome
  else if name = "AirflowEnv" then some cfg.AirflowEnv
  else if name = "AirflowUser" then some cfg.AirflowUser
  else if name = "AirflowPort" then some cfg.AirflowPort
  else if name = "LogDir" then some cfg.LogDir
  else if name = "DBType" then some cfg.DBType
  else if name = "DBUser" then some cfg.DBUser
  else if name = "DBPassword" then some cfg.DBPassword
  else if name = "AirflowVer" then some cfg.AirflowVer
  else if name = "PythonVer" then some cfg.PythonVer
  else none

/-- The ten fields that are read from the operator, in prompt order. -/
def Config.prompted (cfg : Config) : List String :=
  [cfg.SupervisorSockPath, cfg.SupervisorLogPath, cfg.SupervisorDir, cfg.AirflowHome,
   cfg.AirflowUser, cfg.AirflowPort, cfg.LogDir, cfg.DBType, cfg.DBUser, cfg.DBPassword]

/-- All thirteen field values. -/
def Config.values (cfg : Config) : List String :=
  [cfg.SupervisorSockPath, cfg.SupervisorLogPath, cfg.SupervisorDir, cfg.AirflowHome,
   cfg.AirflowEnv, cfg.AirflowUser, cfg.AirflowPort, cfg.LogDir, cfg.DBType, cfg.DBUser,
   cfg.DBPassword, cfg.AirflowVer, cfg.PythonVer]

/-! ## Effects -/

/-- One effectful call of the script. -/
inductive Action where
  /-- Text written to standard output by `fmt.Print` / `fmt.Println`. -/
  | print (text : String)
  /-- A call `runCmd(name, args...)`. -/
  | runCmd (name : String) (args : List String)
  /-- A call `os.Setenv(key, value)`. -/
  | setenv (key value : String)
  /-- A call `os.Create(file)`; its error is discarded by the script. -/
  | create (file : String)
  /-- A call `t.Execute(f, cfg)` on the handle of `file`; `output` is the text the
  template writes to the handle. -/
  | execute (file : String) (output : String)
  /-- A deferred `f.Close()` for the handle of `file`. -/
  | close (file : String)
  /-- A panic raised by `template.Must`. -/
  | panic (msg : String)
  deriving DecidableEq, Repr

/-- Go `fmt.Println(s)`. -/
def Println (s : String) : Action := Action.print (s ++ "\n")

/-- An external command: program name and argument vector. -/
structure Cmd where
  name : String
  args : List String
  deriving DecidableEq, Repr

/-- The environment's answer to `cmd.Run()`: given the commands already run and
the command being run, `none` for success or `some err` for a failure. -/
abbrev Oracle := List Cmd → Cmd → Option String

/-- How a piece of the script ends. -/
inductive Outcome where
  | returned
  | fatal (msg : String)
  | panicked (msg : String)
  deriving DecidableEq, Repr

/-- What happened when a piece of the script was run. -/
structure Run where
  performed : List Action
  outcome : Outcome
  deriving DecidableEq, Repr

/-- The external commands among a list of calls. -/
def commands : List Action → List Cmd
  | [] => []
  | Action.runCmd name args :: rest => ⟨name, args⟩ :: commands rest
  | _ :: rest => commands rest

/-- Source lines 42-49: `runCmd` starts the command and, when `cmd.Run()` reports
an error, calls `log.Fatalf("Command %s failed: %v", name, err)`, which ends the
process; otherwise it returns. -/
def runCmd (oracle : Oracle) (issued : List Cmd) (name : String) (args : List String) :
    Outcome :=
  match oracle issued ⟨name, args⟩ with
  | some err => Outcome.fatal (Sprintf "Command %s failed: %v" [name, err])
  | none => Outcome.returned

/-- Executes a sequence of calls, given the commands started before it.  A
`runCmd` call that does not return ends the run, and so does a panic; every
other call is performed and execution goes on. -/
def run (oracle : Oracle) : List Cmd → List Action → Run
  | _, [] => ⟨[], Outcome.returned⟩
  | issued, Action.runCmd name args :: rest =>
    match runCmd oracle issued name args with
    | Outcome.returned =>
      ⟨Action.runCmd name args :: (run oracle (issued ++ [⟨name, args⟩]) rest).performed,
       (run oracle (issued ++ [⟨name, args⟩]) rest).outcome⟩
    | stopped => ⟨[Action.runCmd name args], stopped⟩
  | _, Action.panic msg :: _ => ⟨[Action.panic msg], Outcome.panicked msg⟩
  | issued, Action.print s :: rest =>
    ⟨Action.print s :: (run oracle issued rest).performed, (run oracle issued rest).outcome⟩
  | issued, Action.setenv k v :: rest =>
    ⟨Action.setenv k v :: (run oracle issued rest).performed, (run oracle issued rest).outcome⟩
  | issued, Action.create f :: rest =>
    ⟨Action.create f :: (run oracle issued rest).performed, (run oracle issued rest).outcome⟩
  | issued, Action.execute f o :: rest =>
    ⟨Action.execute f o :: (run oracle issued rest).performed, (run oracle issued rest).outcome⟩
  | issued, Action.close f :: rest =>
    ⟨Action.close f :: (run oracle issued rest).performed, (run oracle issued rest).outcome⟩

/-! ## The script -/

/-- Source lines 38-40. -/
def trimNewline (s : String) : String :=
  TrimRight s "\r\n"

/-- Source lines 51-55. -/
def InstallPackages : List Action :=
  [Println "Installing system packages...",
   Action.runCmd "sudo" ["apt", "update"],
   Action.runCmd "sudo" ["apt", "install", "-y", "python3-venv", "python3-dev",
     "libmariadb-dev", "build-essential", "mariadb-client-compat", "supervisor"]]

/-- Source lines 57-115: the record that is returned and the prompts that are
printed.  The error result of every `ReadString` is discarded (`_`). -/
def GetUserInput (reader : Reader) : Config × List Action :=
  let r0 := reader.ReadString '\n'
  let sockPath := trimNewline r0.line
  let r1 := r0.reader.ReadString '\n'
  let logPath := trimNewline r1.line
  let r2 := r1.reader.ReadString '\n'
  let supervisorDir := trimNewline r2.line
  let r3 := r2.reader.ReadString '\n'
  let airflowHome := trimNewline r3.line
  let r4 := r3.reader.ReadString '\n'
  let airflowUser := trimNewline r4.line
  let r5 := r4.reader.ReadString '\n'
  let airflowPort := trimNewline r5.line
  let r6 := r5.reader.ReadString '\n'
  let logDir := trimNewline r6.line
  let r7 := r6.reader.ReadString '\n'
  let dbType := trimNewline r7.line
  let r8 := r7.reader.ReadString '\n'
  let dbUser := trimNewline r8.line
  let r9 := r8.reader.ReadString '\n'
  let dbPassword := trimNewline r9.line
  ({ SupervisorSockPath := sockPath
     SupervisorLogPath := logPath
     SupervisorDir := supervisorDir
     AirflowHome := airflowHome
     AirflowEnv := airflowHome ++ "/airflow_env"
     AirflowUser := airflowUser
     AirflowPort := airflowPort
     LogDir := logDir
     DBType := dbType
     DBUser := dbUser
     DBPassword := dbPassword
     AirflowVer := "3.0.3"
     PythonVer := "3.12" },
   [Action.print "Enter Supervisor socket path (e.g., /var/run/supervisor.sock): ",
    Action.print "Enter Supervisor log path (e.g., /var/log/supervisor/supervisord.log): ",
    Action.print "Enter Supervisor conf directory (e.g., /etc/supervisor/conf.d): ",
    Action.print "Enter Airflow home path (e.g., /opt/airflow): ",
    Action.print "Enter Airflow user (e.g., root): ",
    Action.print "Enter Airflow API server port (e.g., 8080): ",
    Action.print "Enter Airflow logs directory (e.g., /opt/airflow/logs): ",
    Action.print "Choose backend DB (mysql/postgresql): ",
    Action.print "Enter DB user: ",
    Action.print "Enter DB password: "])

/-- Source lines 117-137. -/
def SetupDatabase (cfg : Config) : List Action :=
  if cfg.DBType = "mysql" then
    [Println "Setting up MySQL DB and user...",
     Action.runCmd "mysql" ["-h", "127.0.0.1", "-P", "3306", "-u", "root", "-p" ++ cfg.DBPassword,
       "-e", "CREATE DATABASE IF NOT EXISTS airflow_db;"],
     Action.runCmd "mysql" ["-h", "127.0.0.1", "-P", "3306", "-u", "root", "-p" ++ cfg.DBPassword,
       "-e", Sprintf "CREATE USER IF NOT EXISTS '%s'@'%%' IDENTIFIED BY '%s';"
         [cfg.DBUser, cfg.DBPassword]],
     Action.runCmd "mysql" ["-h", "127.0.0.1", "-P", "3306", "-u", "root", "-p" ++ cfg.DBPassword,
       "-e", Sprintf "GRANT ALL PRIVILEGES ON airflow_db.* TO '%s'@'%%'; FLUSH PRIVILEGES;"
         [cfg.DBUser]]]
  else if cfg.DBType = "postgresql" then
    [Println "Setting up PostgreSQL DB and user...",
     Action.runCmd "psql" ["-h", "127.0.0.1", "-p", "5432", "-U", "postgres", "-c",
       "CREATE DATABASE airflow_db;"],
     Action.runCmd "psql" ["-h", "127.0.0.1", "-p", "5432", "-U", "postgres", "-c",
       Sprintf "CREATE USER %s WITH ENCRYPTED PASSWORD '%s';" [cfg.DBUser, cfg.DBPassword]],
     Action.runCmd "psql" ["-h", "127.0.0.1", "-p", "5432", "-U", "postgres", "-c",
       Sprintf "GRANT ALL PRIVILEGES ON DATABASE airflow_db TO %s;" [cfg.DBUser]]]
  else
    [Println "Unsupported DB type"]

/-- Source line 148. -/
def constraintURL (cfg : Config) : String :=
  Sprintf "https://raw.githubusercontent.com/apache/airflow/constraints-%s/constraints-%s.txt"
    [cfg.AirflowVer, cfg.PythonVer]

/-- Source lines 139-152. -/
def SetupPythonEnv (cfg : Config) : List Action :=
  [Println "Setting up Python virtual environment and installing Airflow...",
   Action.runCmd "/usr/local/bin/python3.12" ["-m", "venv", cfg.AirflowEnv],
   Action.runCmd "bash" ["-c",
     Sprintf "source %s/bin/activate && pip install --upgrade pip" [cfg.AirflowEnv]],
   Action.setenv "AIRFLOW_HOME" cfg.AirflowHome,
   Action.setenv "AIRFLOW_VERSION" cfg.AirflowVer,
   Action.setenv "PYTHON_VERSION" cfg.PythonVer,
   Action.runCmd "bash" ["-c",
     Sprintf "source %s/bin/activate && pip install 'apache-airflow[%s]'=='%s' --constraint '%s'"
       [cfg.AirflowEnv, cfg.DBType, cfg.AirflowVer, constraintURL cfg]]]

/-! ## Templates -/

/-- A parsed template: literal text and `.Name` field actions. -/
inductive Node where
  | text (s : String)
  | field (name : String)
  deriving DecidableEq, Repr

/-- Literal text collected so far becomes a text node, unless it is empty. -/
def flushText (acc : List Char) : List Node :=
  if acc = [] then [] else [Node.text ⟨acc.reverse⟩]

/-- Characters allowed in a field name. -/
def isAlphaNumeric (c : Char) : Bool :=
  c = '_' || c.isAlpha || c.isDigit

/-- The body of an action.  Only the form used by the script, a single field of
the data (`.Name`), is accepted. -/
def parseAction (body : List Char) : Except String Node :=
  match body with
  | '.' :: c :: cs =>
    if (c :: cs).all isAlphaNumeric then Except.ok (Node.field ⟨c :: cs⟩)
    else Except.error "unsupported action"
  | _ => Except.error "unsupported action"

/-- Where the template lexer is: in literal text or inside an action. -/
inductive LexState where
  | text
  | action
  deriving DecidableEq, Repr

/-- Lexer and parser of `text/template`, for templates made of literal text and
field actions: text runs up to the next left delimiter, an action runs up to the
next right delimiter. -/
def lexParse : LexState → List Char → List Char → Except String (List Node)
  | LexState.text, acc, [] => Except.ok (flushText acc)
  | LexState.text, acc, '\x7b' :: '\x7b' :: rest =>
    match lexParse LexState.action [] rest with
    | Except.ok ns => Except.ok (flushText acc ++ ns)
    | Except.error e => Except.error e
  | LexState.text, acc, c :: rest => lexParse LexState.text (c :: acc) rest
  | LexState.action, _, [] => Except.error "unclosed action"
  | LexState.action, acc, '\x7d' :: '\x7d' :: rest =>
    match parseAction acc.reverse, lexParse LexState.text [] rest with
    | Except.ok n, Except.ok ns => Except.ok (n :: ns)
    | Except.error e, _ => Except.error e
    | _, Except.error e => Except.error e
  | LexState.action, acc, c :: rest => lexParse LexState.action (c :: acc) rest

/-- Go `template.New(name).Parse(text)`. -/
def Parse (text : String) : Except String (List Node) :=
  lexParse LexState.text [] text.data

/-- Go `(*Template).Execute(w, cfg)`: the bytes written to `w` and the error.
A text node is written as it is; a field action writes the value of the field
with `fmt.Fprint`, that is the string itself.  Execution stops at a field the
record does not have. -/
def Execute : List Node → Config → String × Option String
  | [], _ => ("", none)
  | Node.text s :: ns, cfg => (s ++ (Execute ns cfg).1, (Execute ns cfg).2)
  | Node.field f :: ns, cfg =>
    match cfg.field f with
    | some v => (v ++ (Execute ns cfg).1, (Execute ns cfg).2)
    | none => ("", some ("can't evaluate field " ++ f ++ " in type main.Config"))

/-- Source lines 156-175. -/
def supervisorTemplate : String :=
  "\n" ++
  "[unix_http_server]\n" ++
  "file=\x7b\x7b.SupervisorSockPath\x7d\x7d\n" ++
  "chmod=0700\n" ++
  "\n" ++
  "[supervisord]\n" ++
  "logfile=\x7b\x7b.SupervisorLogPath\x7d\x7d\n" ++
  "pidfile=/var/run/supervisord.pid\n" ++
  "childlogdir=/var/log/supervisor\n" ++
  "user=\x7b\x7b.AirflowUser\x7d\x7d\n" ++
  "\n" ++
  "[rpcinterface:supervisor]\n" ++
  "supervisor.rpcinterface_factory = supervisor.rpcinterface:make_main_rpcinterface\n" ++
  "\n" ++
  "[supervisorctl]\n" ++
  "serverurl=unix://\x7b\x7b.SupervisorSockPath\x7d\x7d\n" ++
  "\n" ++
  "[include]\n" ++
  "files = \x7b\x7b.SupervisorDir\x7d\x7d/*.conf\n"

/-- Source lines 182-230. -/
def airflowTemplate : String :=
  "\n" ++
  "[program:airflow-apiserver]\n" ++
  "command=\x7b\x7b.AirflowEnv\x7d\x7d/bin/airflow api-server --port \x7b\x7b.AirflowPort\x7d\x7d\n" ++
  "directory=\x7b\x7b.AirflowHome\x7d\x7d\n" ++
  "user=\x7b\x7b.AirflowUser\x7d\x7d\n" ++
  "autostart=true\n" ++
  "autorestart=true\n" ++
  "startsecs=10\n" ++
  "stopwaitsecs=20\n" ++
  "stdout_logfile=\x7b\x7b.LogDir\x7d\x7d/airflow-apiserver.out.log\n" ++
  "stderr_logfile=\x7b\x7b.LogDir\x7d\x7d/airflow-apiserver.err.log\n" ++
  "environment=AIRFLOW_HOME=\"\x7b\x7b.AirflowHome\x7d\x7d\"\n" ++
  "\n" ++
  "[program:airflow-scheduler]\n" ++
  "command=\x7b\x7b.AirflowEnv\x7d\x7d/bin/airflow scheduler\n" ++
  "directory=\x7b\x7b.AirflowHome\x7d\x7d\n" ++
  "user=\x7b\x7b.AirflowUser\x7d\x7d\n" ++
  "autostart=true\n" ++
  "autorestart=true\n" ++
  "startsecs=10\n" ++
  "stopwaitsecs=20\n" ++
  "stdout_logfile=\x7b\x7b.LogDir\x7d\x7d/airflow-scheduler.out.log\n" ++
  "stderr_logfile=\x7b\x7b.LogDir\x7d\x7d/airflow-scheduler.err.log\n" ++
  "environment=AIRFLOW_HOME=\"\x7b\x7b.AirflowHome\x7d\x7d\"\n" ++
  "\n" ++
  "[program:airflow-dag-processor]\n" ++
  "command=\x7b\x7b.AirflowEnv\x7d\x7d/bin/airflow dag-processor\n" ++
  "directory=\x7b\x7b.AirflowHome\x7d\x7d\n" ++
  "user=\x7b\x7b.AirflowUser\x7d\x7d\n" ++
  "autostart=true\n" ++
  "autorestart=true\n" ++
  "startsecs=10\n" ++
  "stopwaitsecs=20\n" ++
  "stdout_logfile=\x7b\x7b.LogDir\x7d\x7d/airflow-dag-processor.out.log\n" ++
  "stderr_logfile=\x7b\x7b.LogDir\x7d\x7d/airflow-dag-processor.err.log\n" ++
  "environment=AIRFLOW_HOME=\"\x7b\x7b.AirflowHome\x7d\x7d\"\n" ++
  "\n" ++
  "[program:airflow-triggerer]\n" ++
  "command=\x7b\x7b.AirflowEnv\x7d\x7d/bin/airflow triggerer\n" ++
  "directory=\x7b\x7b.AirflowHome\x7d\x7d\n" ++
  "user=\x7b\x7b.AirflowUser\x7d\x7d\n" ++
  "autostart=true\n" ++
  "autorestart=true\n" ++
  "startsecs=10\n" ++
  "stopwaitsecs=20\n" ++
  "stdout_logfile=\x7b\x7b.LogDir\x7d\x7d/airflow-triggerer.out.log\n" ++
  "stderr_logfile=\x7b\x7b.LogDir\x7d\x7d/airflow-triggerer.err.log\n" ++
  "environment=AIRFLOW_HOME=\"\x7b\x7b.AirflowHome\x7d\x7d\"\n"

/-- Source lines 154-235.  `template.Must` panics when parsing fails; the
deferred `Close` calls run when the function ends, last one first. -/
def GenerateConfigs (cfg : Config) : List Action :=
  match Parse supervisorTemplate with
  | Except.error e => [Action.panic e]
  | Except.ok t1 =>
    [Action.create "supervisor.conf", Action.execute "supervisor.conf" (Execute t1 cfg).1] ++
    match Parse airflowTemplate with
    | Except.error e => [Action.close "supervisor.conf", Action.panic e]
    | Except.ok t2 =>
      [Action.create "airflow.conf", Action.execute "airflow.conf" (Execute t2 cfg).1,
       Action.close "airflow.conf", Action.close "supervisor.conf"]

/-- Source lines 29-36: the whole program, for a given standard input. -/
def main (stdin : Reader) : List Action :=
  (GetUserInput stdin).2 ++ InstallPackages ++ SetupDatabase (GetUserInput stdin).1 ++
    SetupPythonEnv (GetUserInput stdin).1 ++ GenerateConfigs (GetUserInput stdin).1 ++
    [Println "Setup completed successfully!"]

/-! ## Vocabulary of the specification -/

/-- Concatenation of a list of strings, first to last. -/
def concat : List String → String
  | [] => ""
  | s :: ss => s ++ concat ss

/-- The text of `supervisor.conf` as the specification describes it: the
template text with every placeholder replaced by the field value. -/
def supervisorExpected (cfg : Config) : String :=
  concat [
    "\n",
    "[unix_http_server]\n",
    "file=", cfg.SupervisorSockPath, "\n",
    "chmod=0700\n",
    "\n",
    "[supervisord]\n",
    "logfile=", cfg.SupervisorLogPath, "\n",
    "pidfile=/var/run/supervisord.pid\n",
    "childlogdir=/var/log/supervisor\n",
    "user=", cfg.AirflowUser, "\n",
    "\n",
    "[rpcinterface:supervisor]\n",
    "supervisor.rpcinterface_factory = supervisor.rpcinterface:make_main_rpcinterface\n",
    "\n",
    "[supervisorctl]\n",
    "serverurl=unix://", cfg.SupervisorSockPath, "\n",
    "\n",
    "[include]\n",
    "files = ", cfg.SupervisorDir, "/*.conf\n"]

/-- The text of `airflow.conf` as the specification describes it. -/
def airflowExpected (cfg : Config) : String :=
  concat [
    "\n",
    "[program:airflow-apiserver]\n",
    "command=", cfg.AirflowEnv, "/bin/airflow api-server --port ", cfg.AirflowPort, "\n",
    "directory=", cfg.AirflowHome, "\n",
    "user=", cfg.AirflowUser, "\n",
    "autostart=true\n",
    "autorestart=true\n",
    "startsecs=10\n",
    "stopwaitsecs=20\n",
    "stdout_logfile=", cfg.LogDir, "/airflow-apiserver.out.log\n",
    "stderr_logfile=", cfg.LogDir, "/airflow-apiserver.err.log\n",
    "environment=AIRFLOW_HOME=\"", cfg.AirflowHome, "\"\n",
    "\n",
    "[program:airflow-scheduler]\n",
    "command=", cfg.AirflowEnv, "/bin/airflow scheduler\n",
    "directory=", cfg.AirflowHome, "\n",
    "user=", cfg.AirflowUser, "\n",
    "autostart=true\n",
    "autorestart=true\n",
    "startsecs=10\n",
    "stopwaitsecs=20\n",
    "stdout_logfile=", cfg.LogDir, "/airflow-scheduler.out.log\n",
    "stderr_logfile=", cfg.LogDir, "/airflow-scheduler.err.log\n",
    "environment=AIRFLOW_HOME=\"", cfg.AirflowHome, "\"\n",
    "\n",
    "[program:airflow-dag-processor]\n",
    "command=", cfg.AirflowEnv, "/bin/airflow dag-processor\n",
    "directory=", cfg.AirflowHome, "\n",
    "user=", cfg.AirflowUser, "\n",
    "autostart=true\n",
    "autorestart=true\n",
    "startsecs=10\n",
    "stopwaitsecs=20\n",
    "stdout_logfile=", cfg.LogDir, "/airflow-dag-processor.out.log\n",
    "stderr_logfile=", cfg.LogDir, "/airflow-dag-processor.err.log\n",
    "environment=AIRFLOW_HOME=\"", cfg.AirflowHome, "\"\n",
    "\n",
    "[program:airflow-triggerer]\n",
    "command=", cfg.AirflowEnv, "/bin/airflow triggerer\n",
    "directory=", cfg.AirflowHome, "\n",
    "user=", cfg.AirflowUser, "\n",
    "autostart=true\n",
    "autorestart=true\n",
    "startsecs=10\n",
    "stopwaitsecs=20\n",
    "stdout_logfile=", cfg.LogDir, "/airflow-triggerer.out.log\n",
    "stderr_logfile=", cfg.LogDir, "/airflow-triggerer.err.log\n",
    "environment=AIRFLOW_HOME=\"", cfg.AirflowHome, "\"\n"]

/-- The reader as it is just before the read of prompt number `n` (from 0). -/
def readerAt (stdin : Reader) : Nat → Reader
  | 0 => stdin
  | n + 1 => ((readerAt stdin n).ReadString '\n').reader

/-- The bytes on standard input when the operator enters the lines `ls`, each
ended by a newline, followed by the bytes `rest`. -/
def typed : List String → List Char → List Char
  | [], rest => rest
  | l :: ls, rest => l.data ++ '\n' :: typed ls rest

/-- The result of the read of prompt number `n` (from 0). -/
def readAt (stdin : Reader) (n : Nat) : ReadResult :=
  (readerAt stdin n).ReadString '\n'

/-- The commands that are started when the commands `cs` are to be run in order
after the commands `issued`: all of them up to and including the first one that
fails. -/
def upToFirstFailure (oracle : Oracle) : List Cmd → List Cmd → List Cmd
  | _, [] => []
  | issued, c :: cs =>
    match oracle issued c with
    | some _ => [c]
    | none => c :: upToFirstFailure oracle (issued ++ [c]) cs

/-- No call in the list is a panic. -/
def panicFree : List Action → Bool
  | [] => true
  | Action.panic _ :: _ => false
  | _ :: rest => panicFree rest

/-- The SQL statement of a database-client command: its last argument. -/
def sqlOf (c : Cmd) : String :=
  c.args.getLast?.getD ""

/-- The string `s` begins with the string `p`. -/
def startsWith (s p : String) : Bool :=
  p.data.isPrefixOf s.data

/-- The scenario of the specification: PostgreSQL, user `af`, password `pw123`,
home path `/opt/airflow`. -/
def sampleStdin : Reader :=
  ⟨typed ["/var/run/supervisor.sock", "/var/log/supervisor/supervisord.log",
    "/etc/supervisor/conf.d", "/opt/airflow", "root", "8080", "/opt/airflow/logs",
    "postgresql", "af", "pw123"] []⟩

/-- The record entered in the scenario of the specification. -/
def sampleCfg : Config :=
  { SupervisorSockPath := "/var/run/supervisor.sock"
    SupervisorLogPath := "/var/log/supervisor/supervisord.log"
    SupervisorDir := "/etc/supervisor/conf.d"
    AirflowHome := "/opt/airflow"
    AirflowEnv := "/opt/airflow/airflow_env"
    AirflowUser := "root"
    AirflowPort := "8080"
    LogDir := "/opt/airflow/logs"
    DBType := "postgresql"
    DBUser := "af"
    DBPassword := "pw123"
    AirflowVer := "3.0.3"
    PythonVer := "3.12" }

/-- An environment in which every external command succeeds. -/
def allSucceed : Oracle :=
  fun _ _ => none

/-- The first package-manager command of `InstallPackages`. -/
def aptUpdate : Cmd :=
  ⟨"sudo", ["apt", "update"]⟩

/-- The second package-manager command of `InstallPackages`. -/
def aptInstall : Cmd :=
  ⟨"sudo", ["apt", "install", "-y", "python3-venv", "python3-dev", "libmariadb-dev",
    "build-essential", "mariadb-client-compat", "supervisor"]⟩

/-- An environment in which the package installation fails and every other
command succeeds. -/
def installFails : Oracle :=
  fun _ c => if c = aptInstall then some "exit status 100" else none

/-- Every character of the string is printable ASCII (codes 32 to 126). -/
def printableASCII (s : String) : Bool :=
  s.data.all (fun c => decide (32 ≤ c.toNat) && decide (c.toNat ≤ 126))

/-- The list `p` occurs in the list as a contiguous block. -/
def occursIn (p : List Char) : List Char → Bool
  | [] => p.isPrefixOf []
  | c :: cs => p.isPrefixOf (c :: cs) || occursIn p cs

/-- The string contains template-directive syntax: a left or a right action
delimiter. -/
def hasDirective (s : String) : Bool :=
  occursIn "\x7b\x7b".data s.data || occursIn "\x7d\x7d".data s.data

/-- A record whose fields hold their own placeholders. -/
def placeholderCfg : Config :=
  { SupervisorSockPath := "\x7b\x7b.SupervisorSockPath\x7d\x7d"
    SupervisorLogPath := "\x7b\x7b.SupervisorLogPath\x7d\x7d"
    SupervisorDir := "\x7b\x7b.SupervisorDir\x7d\x7d"
    AirflowHome := "\x7b\x7b.AirflowHome\x7d\x7d"
    AirflowEnv := "\x7b\x7b.AirflowEnv\x7d\x7d"
    AirflowUser := "\x7b\x7b.AirflowUser\x7d\x7d"
    AirflowPort := "\x7b\x7b.AirflowPort\x7d\x7d"
    LogDir := "\x7b\x7b.LogDir\x7d\x7d"
    DBType := "\x7b\x7b.DBType\x7d\x7d"
    DBUser := "\x7b\x7b.DBUser\x7d\x7d"
    DBPassword := "\x7b\x7b.DBPassword\x7d\x7d"
    AirflowVer := "\x7b\x7b.AirflowVer\x7d\x7d"
    PythonVer := "\x7b\x7b.PythonVer\x7d\x7d" }

/-- The record of the scenario with a directive as the Airflow user. -/
def directiveCfg : Config :=
  { sampleCfg with AirflowUser := "\x7b\x7b.AirflowHome\x7d\x7d" }

/-! ## Lemmas -/

theorem cutset_contains (c : Char) : "\r\n".data.contains c = true ↔ c = '\r' ∨ c = '\n' := by
  show (['\r', '\n'] : List Char).contains c = true ↔ _
  simp

theorem trimNewline_data (s : String) :
    (trimNewline s).data = s.data.rdropWhile (fun c => "\r\n".data.contains c) := rfl

theorem rdropWhile_split {α : Type} (p : α → Bool) (l : List α) :
    ∃ t, l = l.rdropWhile p ++ t ∧ ∀ x ∈ t, p x = true := by
  refine ⟨(l.reverse.takeWhile p).reverse, ?_, ?_⟩
  · have h := List.takeWhile_append_dropWhile p l.reverse
    have h2 := congrArg List.reverse h
    simp only [List.reverse_append, List.reverse_reverse] at h2
    exact h2.symm
  · intro x hx
    exact List.mem_takeWhile_imp (List.mem_reverse.mp hx)

theorem trimNewline_split (s : String) :
    ∃ t : String, s = trimNewline s ++ t ∧ ∀ c ∈ t.data, c = '\r' ∨ c = '\n' := by
  obtain ⟨t, h1, h2⟩ := rdropWhile_split (fun c => "\r\n".data.contains c) s.data
  refine ⟨⟨t⟩, ?_, ?_⟩
  · apply String.ext
    rw [String.data_append, trimNewline_data]
    exact h1
  · intro c hc
    exact (cutset_contains c).mp (h2 c hc)

theorem trimNewline_last (s : String) (c : Char)
    (h : (trimNewline s).data.getLast? = some c) : c ≠ '\r' ∧ c ≠ '\n' := by
  rw [trimNewline_data] at h
  have hne : s.data.rdropWhile (fun c => "\r\n".data.contains c) ≠ [] := by
    intro h0; rw [h0] at h; simp at h
  have h3 := List.rdropWhile_last_not (fun c => "\r\n".data.contains c) s.data hne
  rw [List.getLast?_eq_getLast _ hne] at h
  injection h with h
  rw [h] at h3
  have h4 : ¬ (c = '\r' ∨ c = '\n') := fun hc => h3 ((cutset_contains c).mpr hc)
  exact ⟨fun e => h4 (Or.inl e), fun e => h4 (Or.inr e)⟩

theorem prompted_eq (stdin : Reader) :
    (GetUserInput stdin).1.prompted =
      [0, 1, 2, 3, 4, 5, 6, 7, 8, 9].map (fun i => trimNewline (readAt stdin i).line) := by
  simp only [GetUserInput, Config.prompted, readAt, readerAt, List.map_cons, List.map_nil]

theorem map_ten_get {α : Type} (f : Nat → α) (i : Fin 10) :
    ([0, 1, 2, 3, 4, 5, 6, 7, 8, 9].map f)[i.val]? = some (f i.val) := by
  fin_cases i <;> rfl

theorem prompted_get (stdin : Reader) (i : Fin 10) :
    (GetUserInput stdin).1.prompted[i.val]? = some (trimNewline (readAt stdin i.val).line) := by
  rw [prompted_eq]
  exact map_ten_get _ i

theorem readUntil_line (d : Char) (l rest : List Char) (h : d ∉ l) :
    readUntil d (l ++ d :: rest) = (l ++ [d], some rest) := by
  induction l with
  | nil => simp [readUntil]
  | cons x xs ih =>
    have hx : x ≠ d := fun e => h (by simp [e])
    have hxs : d ∉ xs := fun e => h (List.mem_cons_of_mem _ e)
    simp [readUntil, hx, ih hxs]

theorem readUntil_none (d : Char) (l : List Char) (h : (readUntil d l).2 = none) :
    (readUntil d l).1 = l ∧ d ∉ l := by
  induction l with
  | nil => simp [readUntil]
  | cons x xs ih =>
    by_cases hx : x = d
    · simp [readUntil, hx] at h
    · simp only [readUntil, hx, if_false] at h ⊢
      have h2 := ih h
      refine ⟨by rw [h2.1], ?_⟩
      intro hm
      rcases List.mem_cons.mp hm with e | e
      · exact hx e.symm
      · exact h2.2 e

theorem ReadString_line (l : String) (rest : List Char) (h : '\n' ∉ l.data) :
    (Reader.mk (l.data ++ '\n' :: rest)).ReadString '\n' =
      { line := l ++ "\n", err := none, reader := ⟨rest⟩ } := by
  simp only [Reader.ReadString, readUntil_line '\n' l.data rest h]
  congr 1

theorem ReadString_err (r : Reader) (d : Char) (h : (r.ReadString d).err ≠ none) :
    (r.ReadString d).line = ⟨r.pending⟩ ∧ d ∉ r.pending := by
  unfold Reader.ReadString at h ⊢
  cases h2 : (readUntil d r.pending).2 with
  | some rest => simp [h2] at h
  | none =>
    simp only [h2]
    have h3 := readUntil_none d r.pending h2
    exact ⟨by rw [h3.1], h3.2⟩

theorem trimNewline_newline (l : String) : trimNewline (l ++ "\n") = trimNewline l := by
  apply String.ext
  rw [trimNewline_data, trimNewline_data, String.data_append]
  exact List.rdropWhile_concat_pos _ _ '\n' (by decide)

theorem readerAt_succ (stdin : Reader) (n : Nat) :
    readerAt stdin (n + 1) = readerAt (stdin.ReadString '\n').reader n := by
  induction n with
  | zero => rfl
  | succ k ih => simp only [readerAt] at ih ⊢; rw [ih]

theorem readAt_succ (stdin : Reader) (n : Nat) :
    readAt stdin (n + 1) = readAt (stdin.ReadString '\n').reader n := by
  unfold readAt; rw [readerAt_succ]

theorem readAt_typed (ls : List String) (rest : List Char) (h : ∀ l ∈ ls, '\n' ∉ l.data)
    (i : Nat) (hi : i < ls.length) :
    (readAt ⟨typed ls rest⟩ i).line = ls[i] ++ "\n" ∧ (readAt ⟨typed ls rest⟩ i).err = none := by
  induction ls generalizing i with
  | nil => simp at hi
  | cons l ls ih =>
    have hl : '\n' ∉ l.data := h l (List.mem_cons_self _ _)
    cases i with
    | zero =>
      simp only [readAt, readerAt, typed, ReadString_line l _ hl, List.getElem_cons_zero]
      exact ⟨trivial, trivial⟩
    | succ k =>
      rw [readAt_succ]
      simp only [typed, ReadString_line l _ hl, List.getElem_cons_succ]
      exact ih (fun x hx => h x (List.mem_cons_of_mem _ hx)) k (by simpa using hi)

theorem prompted_typed (ls : List String) (rest : List Char) (hlen : ls.length = 10)
    (h : ∀ l ∈ ls, '\n' ∉ l.data) :
    (GetUserInput ⟨typed ls rest⟩).1.prompted = ls.map trimNewline := by
  apply List.ext_getElem?
  intro i
  by_cases hi : i < 10
  · have h1 := prompted_get ⟨typed ls rest⟩ ⟨i, hi⟩
    simp only at h1
    rw [h1, (readAt_typed ls rest h i (by omega)).1, trimNewline_newline]
    simp [List.getElem?_map, List.getElem?_eq_getElem, hlen, hi]
  · have e1 : (GetUserInput ⟨typed ls rest⟩).1.prompted.length = 10 := by
      rw [prompted_eq]; rfl
    rw [List.getElem?_eq_none (by omega), List.getElem?_eq_none (by simp; omega)]

theorem run_performed_isPrefix (oracle : Oracle) (issued : List Cmd) (p : List Action) :
    (run oracle issued p).performed <+: p := by
  induction p generalizing issued with
  | nil => simp [run]
  | cons a rest ih =>
    cases a with
    | runCmd name args =>
      simp only [run, runCmd]
      cases oracle issued ⟨name, args⟩ with
      | some err => exact ⟨rest, rfl⟩
      | none => exact (List.prefix_cons_inj _).mpr (ih _)
    | panic msg => exact ⟨rest, rfl⟩
    | print s => exact (List.prefix_cons_inj _).mpr (ih _)
    | setenv k v => exact (List.prefix_cons_inj _).mpr (ih _)
    | create f => exact (List.prefix_cons_inj _).mpr (ih _)
    | execute f o => exact (List.prefix_cons_inj _).mpr (ih _)
    | close f => exact (List.prefix_cons_inj _).mpr (ih _)

theorem run_commands (oracle : Oracle) (issued : List Cmd) (p : List Action)
    (hp : panicFree p = true) :
    commands (run oracle issued p).performed = upToFirstFailure oracle issued (commands p) := by
  induction p generalizing issued with
  | nil => simp [run, commands, upToFirstFailure]
  | cons a rest ih =>
    cases a with
    | runCmd name args =>
      simp only [run, runCmd, commands, upToFirstFailure]
      cases oracle issued ⟨name, args⟩ with
      | some err => simp [commands]
      | none => simp only [commands]; rw [ih _ (by simpa [panicFree] using hp)]
    | panic msg => simp [panicFree] at hp
    | print s => simp only [run, commands]; exact ih _ (by simpa [panicFree] using hp)
    | setenv k v => simp only [run, commands]; exact ih _ (by simpa [panicFree] using hp)
    | create f => simp only [run, commands]; exact ih _ (by simpa [panicFree] using hp)
    | execute f o => simp only [run, commands]; exact ih _ (by simpa [panicFree] using hp)
    | close f => simp only [run, commands]; exact ih _ (by simpa [panicFree] using hp)

theorem upToFirstFailure_isPrefix (oracle : Oracle) (issued cs : List Cmd) :
    upToFirstFailure oracle issued cs <+: cs := by
  induction cs generalizing issued with
  | nil => simp [upToFirstFailure]
  | cons c cs ih =>
    simp only [upToFirstFailure]
    cases oracle issued c with
    | some err => exact ⟨cs, rfl⟩
    | none => exact (List.prefix_cons_inj _).mpr (ih _)

theorem run_ok (oracle : Oracle) (hok : ∀ h c, oracle h c = none) (issued : List Cmd)
    (p : List Action) (hp : panicFree p = true) :
    run oracle issued p = ⟨p, Outcome.returned⟩ := by
  induction p generalizing issued with
  | nil => simp [run]
  | cons a rest ih =>
    cases a with
    | runCmd name args =>
      simp only [run, runCmd, hok]
      rw [ih _ (by simpa [panicFree] using hp)]
    | panic msg => simp [panicFree] at hp
    | print s => simp only [run]; rw [ih _ (by simpa [panicFree] using hp)]
    | setenv k v => simp only [run]; rw [ih _ (by simpa [panicFree] using hp)]
    | create f => simp only [run]; rw [ih _ (by simpa [panicFree] using hp)]
    | execute f o => simp only [run]; rw [ih _ (by simpa [panicFree] using hp)]
    | close f => simp only [run]; rw [ih _ (by simpa [panicFree] using hp)]

/-- A fatal end comes from the last command started: it is a command on which
the environment reports a failure, and the fatal message names it. -/
theorem run_fatal (oracle : Oracle) (issued : List Cmd) (p : List Action) (msg : String)
    (h : (run oracle issued p).outcome = Outcome.fatal msg) :
    ∃ pre name args err, (run oracle issued p).performed = pre ++ [Action.runCmd name args] ∧
      oracle (issued ++ commands pre) ⟨name, args⟩ = some err ∧
      msg = Sprintf "Command %s failed: %v" [name, err] := by
  induction p generalizing issued with
  | nil => simp [run] at h
  | cons a rest ih =>
    cases a with
    | runCmd name args =>
      simp only [run, runCmd] at h ⊢
      cases ho : oracle issued ⟨name, args⟩ with
      | some err =>
        simp only [ho] at h ⊢
        injection h with h
        exact ⟨[], name, args, err, rfl, by simpa [commands] using ho, h.symm⟩
      | none =>
        simp only [ho] at h ⊢
        obtain ⟨pre, n, a, e, h1, h2, h3⟩ := ih _ h
        exact ⟨Action.runCmd name args :: pre, n, a, e, by rw [h1]; rfl,
          by simpa [commands, List.append_assoc] using h2, h3⟩
    | panic m => simp [run] at h
    | print s =>
      simp only [run] at h ⊢
      obtain ⟨pre, n, a, e, h1, h2, h3⟩ := ih _ h
      exact ⟨Action.print s :: pre, n, a, e, by rw [h1]; rfl, by simpa [commands] using h2, h3⟩
    | setenv k v =>
      simp only [run] at h ⊢
      obtain ⟨pre, n, a, e, h1, h2, h3⟩ := ih _ h
      exact ⟨Action.setenv k v :: pre, n, a, e, by rw [h1]; rfl, by simpa [commands] using h2, h3⟩
    | create f =>
      simp only [run] at h ⊢
      obtain ⟨pre, n, a, e, h1, h2, h3⟩ := ih _ h
      exact ⟨Action.create f :: pre, n, a, e, by rw [h1]; rfl, by simpa [commands] using h2, h3⟩
    | execute f o =>
      simp only [run] at h ⊢
      obtain ⟨pre, n, a, e, h1, h2, h3⟩ := ih _ h
      exact ⟨Action.execute f o :: pre, n, a, e, by rw [h1]; rfl, by simpa [commands] using h2, h3⟩
    | close f =>
      simp only [run] at h ⊢
      obtain ⟨pre, n, a, e, h1, h2, h3⟩ := ih _ h
      exact ⟨Action.close f :: pre, n, a, e, by rw [h1]; rfl, by simpa [commands] using h2, h3⟩

theorem startsWith_append (p t : String) : startsWith (p ++ t) p = true := by
  unfold startsWith
  rw [String.data_append]
  exact List.isPrefixOf_iff_prefix.mpr (List.prefix_append _ _)

theorem sprintf_pgCreateUser (u p : String) :
    Sprintf "CREATE USER %s WITH ENCRYPTED PASSWORD '%s';" [u, p] =
      "CREATE USER " ++ u ++ " WITH ENCRYPTED PASSWORD '" ++ p ++ "';" := by
  simp only [String.append_assoc]; rfl

theorem sprintf_pgGrant (u : String) :
    Sprintf "GRANT ALL PRIVILEGES ON DATABASE airflow_db TO %s;" [u] =
      "GRANT ALL PRIVILEGES ON DATABASE airflow_db TO " ++ u ++ ";" := by
  simp only [String.append_assoc]; rfl

theorem sprintf_myCreateUser (u p : String) :
    Sprintf "CREATE USER IF NOT EXISTS '%s'@'%%' IDENTIFIED BY '%s';" [u, p] =
      "CREATE USER IF NOT EXISTS '" ++ u ++ "'@'%' IDENTIFIED BY '" ++ p ++ "';" := by
  simp only [String.append_assoc]; rfl

theorem sprintf_myGrant (u : String) :
    Sprintf "GRANT ALL PRIVILEGES ON airflow_db.* TO '%s'@'%%'; FLUSH PRIVILEGES;" [u] =
      "GRANT ALL PRIVILEGES ON airflow_db.* TO '" ++ u ++ "'@'%'; FLUSH PRIVILEGES;" := by
  simp only [String.append_assoc]; rfl

set_option maxRecDepth 100000 in
theorem sprintf_pipInstall (env db : String) :
    Sprintf "source %s/bin/activate && pip install 'apache-airflow[%s]'=='%s' --constraint '%s'"
      [env, db, "3.0.3",
       Sprintf "https://raw.githubusercontent.com/apache/airflow/constraints-%s/constraints-%s.txt"
         ["3.0.3", "3.12"]] =
      "source " ++ env ++ "/bin/activate && pip install 'apache-airflow[" ++ db ++
        "]'=='3.0.3' --constraint 'https://raw.githubusercontent.com/apache/airflow/constraints-3.0.3/constraints-3.12.txt'" := by
  simp only [String.append_assoc]; rfl

theorem sprintf_fatal (name err : String) :
    Sprintf "Command %s failed: %v" [name, err] = "Command " ++ name ++ " failed: " ++ err := by
  have h : Sprintf "Command %s failed: %v" [name, err] =
      "Command " ++ (name ++ (" failed: " ++ (err ++ ""))) := rfl
  rw [h, String.append_empty]
  simp only [String.append_assoc]

theorem SetupDatabase_mysql (cfg : Config) (h : cfg.DBType = "mysql") :
    SetupDatabase cfg =
      [Println "Setting up MySQL DB and user...",
       Action.runCmd "mysql" ["-h", "127.0.0.1", "-P", "3306", "-u", "root",
         "-p" ++ cfg.DBPassword, "-e", "CREATE DATABASE IF NOT EXISTS airflow_db;"],
       Action.runCmd "mysql" ["-h", "127.0.0.1", "-P", "3306", "-u", "root",
         "-p" ++ cfg.DBPassword, "-e",
         "CREATE USER IF NOT EXISTS '" ++ cfg.DBUser ++ "'@'%' IDENTIFIED BY '" ++
           cfg.DBPassword ++ "';"],
       Action.runCmd "mysql" ["-h", "127.0.0.1", "-P", "3306", "-u", "root",
         "-p" ++ cfg.DBPassword, "-e",
         "GRANT ALL PRIVILEGES ON airflow_db.* TO '" ++ cfg.DBUser ++
           "'@'%'; FLUSH PRIVILEGES;"]] := by
  rw [SetupDatabase, if_pos h, sprintf_myCreateUser, sprintf_myGrant]

theorem SetupDatabase_postgresql (cfg : Config) (h : cfg.DBType = "postgresql") :
    SetupDatabase cfg =
      [Println "Setting up PostgreSQL DB and user...",
       Action.runCmd "psql" ["-h", "127.0.0.1", "-p", "5432", "-U", "postgres", "-c",
         "CREATE DATABASE airflow_db;"],
       Action.runCmd "psql" ["-h", "127.0.0.1", "-p", "5432", "-U", "postgres", "-c",
         "CREATE USER " ++ cfg.DBUser ++ " WITH ENCRYPTED PASSWORD '" ++ cfg.DBPassword ++ "';"],
       Action.runCmd "psql" ["-h", "127.0.0.1", "-p", "5432", "-U", "postgres", "-c",
         "GRANT ALL PRIVILEGES ON DATABASE airflow_db TO " ++ cfg.DBUser ++ ";"]] := by
  have h2 : cfg.DBType ≠ "mysql" := by rw [h]; decide
  rw [SetupDatabase, if_neg h2, if_pos h, sprintf_pgCreateUser, sprintf_pgGrant]

theorem SetupDatabase_other (cfg : Config) (h1 : cfg.DBType ≠ "mysql")
    (h2 : cfg.DBType ≠ "postgresql") :
    SetupDatabase cfg = [Println "Unsupported DB type"] := by
  rw [SetupDatabase, if_neg h1, if_neg h2]

theorem panicFree_append (p q : List Action) :
    panicFree (p ++ q) = (panicFree p && panicFree q) := by
  induction p with
  | nil => simp [panicFree]
  | cons a rest ih => cases a <;> simp [panicFree, ih]

theorem panicFree_SetupDatabase (cfg : Config) : panicFree (SetupDatabase cfg) = true := by
  unfold SetupDatabase
  split
  · rfl
  · split <;> rfl

set_option maxRecDepth 1000000 in
theorem GenerateConfigs_eq (cfg : Config) :
    GenerateConfigs cfg =
      [Action.create "supervisor.conf",
       Action.execute "supervisor.conf" (supervisorExpected cfg),
       Action.create "airflow.conf",
       Action.execute "airflow.conf" (airflowExpected cfg),
       Action.close "airflow.conf",
       Action.close "supervisor.conf"] := by
  rfl

theorem panicFree_GenerateConfigs (cfg : Config) : panicFree (GenerateConfigs cfg) = true := by
  rw [GenerateConfigs_eq]; rfl

theorem GetUserInput_prompts (stdin : Reader) :
    (GetUserInput stdin).2 =
      [Action.print "Enter Supervisor socket path (e.g., /var/run/supervisor.sock): ",
       Action.print "Enter Supervisor log path (e.g., /var/log/supervisor/supervisord.log): ",
       Action.print "Enter Supervisor conf directory (e.g., /etc/supervisor/conf.d): ",
       Action.print "Enter Airflow home path (e.g., /opt/airflow): ",
       Action.print "Enter Airflow user (e.g., root): ",
       Action.print "Enter Airflow API server port (e.g., 8080): ",
       Action.print "Enter Airflow logs directory (e.g., /opt/airflow/logs): ",
       Action.print "Choose backend DB (mysql/postgresql): ",
       Action.print "Enter DB user: ",
       Action.print "Enter DB password: "] := by
  simp only [GetUserInput]

theorem panicFree_main (stdin : Reader) : panicFree (main stdin) = true := by
  unfold main
  simp only [panicFree_append, panicFree_SetupDatabase, panicFree_GenerateConfigs,
    GetUserInput_prompts, Bool.and_true, Bool.true_and]
  rfl

theorem SetupPythonEnv_last (cfg : Config) (hv : cfg.AirflowVer = "3.0.3")
    (hp : cfg.PythonVer = "3.12") :
    (SetupPythonEnv cfg).getLast? = some (Action.runCmd "bash" ["-c",
      "source " ++ cfg.AirflowEnv ++ "/bin/activate && pip install 'apache-airflow[" ++
        cfg.DBType ++ "]'=='3.0.3' --constraint 'https://raw.githubusercontent.com/apache/airflow/constraints-3.0.3/constraints-3.12.txt'"]) := by
  simp only [SetupPythonEnv, constraintURL, hv, hp, sprintf_pipInstall]
  rfl

theorem main_shape (stdin : Reader) :
    ∃ rest, main stdin = (GetUserInput stdin).2 ++
      (Println "Installing system packages..." :: Action.runCmd aptUpdate.name aptUpdate.args ::
        Action.runCmd aptInstall.name aptInstall.args :: rest) :=
  ⟨SetupDatabase (GetUserInput stdin).1 ++ SetupPythonEnv (GetUserInput stdin).1 ++
      GenerateConfigs (GetUserInput stdin).1 ++ [Println "Setup completed successfully!"], by
    simp only [main, InstallPackages, aptUpdate, aptInstall, List.append_assoc,
      List.cons_append, List.nil_append]⟩

theorem run_install_failure (stdin : Reader) (oracle : Oracle)
    (hfail : oracle [] aptUpdate ≠ none ∨ oracle [aptUpdate] aptInstall ≠ none) :
    (∃ err, (run oracle [] (main stdin)).outcome = Outcome.fatal ("Command sudo failed: " ++ err)) ∧
    (commands (run oracle [] (main stdin)).performed = [aptUpdate] ∨
      commands (run oracle [] (main stdin)).performed = [aptUpdate, aptInstall]) ∧
    (∀ a ∈ (run oracle [] (main stdin)).performed,
      (∃ s, a = Action.print s) ∨ (∃ args, a = Action.runCmd "sudo" args)) := by
  obtain ⟨rest, hm⟩ := main_shape stdin
  rw [hm, GetUserInput_prompts]
  simp only [List.cons_append, List.nil_append, run, runCmd, Println, List.nil_append]
  cases h1 : oracle [] aptUpdate with
  | some err =>
    have h1' : oracle [] ⟨aptUpdate.name, aptUpdate.args⟩ = some err := h1
    simp only [h1', sprintf_fatal]
    refine ⟨⟨err, rfl⟩, Or.inl rfl, ?_⟩
    intro a ha
    simp only [List.mem_cons, List.mem_singleton, List.not_mem_nil, or_false] at ha
    rcases ha with e | e | e | e | e | e | e | e | e | e | e | e
    all_goals first
      | exact Or.inl ⟨_, e⟩
      | exact Or.inr ⟨_, e⟩
  | none =>
    have h1' : oracle [] ⟨aptUpdate.name, aptUpdate.args⟩ = none := h1
    have h2 : oracle [aptUpdate] aptInstall ≠ none := by
      rcases hfail with h | h
      · exact absurd h1 h
      · exact h
    obtain ⟨err, h3⟩ := Option.ne_none_iff_exists'.mp h2
    have h3' : oracle [⟨aptUpdate.name, aptUpdate.args⟩] ⟨aptInstall.name, aptInstall.args⟩ =
        some err := h3
    simp only [h1', h3', sprintf_fatal]
    refine ⟨⟨err, rfl⟩, Or.inr rfl, ?_⟩
    intro a ha
    simp only [List.mem_cons, List.mem_singleton, List.not_mem_nil, or_false] at ha
    rcases ha with e | e | e | e | e | e | e | e | e | e | e | e | e
    all_goals first
      | exact Or.inl ⟨_, e⟩
      | exact Or.inr ⟨_, e⟩

set_option maxRecDepth 1000000 in
theorem expected_placeholders :
    supervisorExpected placeholderCfg = supervisorTemplate ∧
    airflowExpected placeholderCfg = airflowTemplate := by
  constructor <;> rfl

theorem trimNewline_unique (s a t : String) (hs : s = a ++ t)
    (ht : ∀ c ∈ t.data, c = '\r' ∨ c = '\n')
    (ha : ∀ c, a.data.getLast? = some c → c ≠ '\r' ∧ c ≠ '\n') : trimNewline s = a := by
  apply String.ext
  rw [trimNewline_data, hs, String.data_append, List.rdropWhile, List.reverse_append,
    List.dropWhile_append_of_pos (by
      intro c hc
      exact (cutset_contains c).mpr (ht c (List.mem_reverse.mp hc)))]
  show List.rdropWhile _ a.data = a.data
  rw [List.rdropWhile_eq_self_iff]
  intro hl hp
  have h1 := ha _ (List.getLast?_eq_getLast _ hl)
  rcases (cutset_contains _).mp hp with e | e
  · exact h1.1 e
  · exact h1.2 e

theorem trimNewline_eq_empty (l : List Char) :
    trimNewline ⟨l⟩ = "" ↔ ∀ c ∈ l, c = '\r' ∨ c = '\n' := by
  constructor
  · intro h c hc
    have h2 := congrArg String.data h
    rw [trimNewline_data] at h2
    exact (cutset_contains c).mp ((List.rdropWhile_eq_nil_iff.mp h2) c hc)
  · intro h
    apply String.ext
    rw [trimNewline_data]
    exact List.rdropWhile_eq_nil_iff.mpr (fun c hc => (cutset_contains c).mpr (h c hc))

theorem prompted_three (cfg : Config) : cfg.prompted[3]? = some cfg.AirflowHome := rfl

/-! ## The claims -/

/-- Claim C1.  For each of the ten prompts the stored field is `trimNewline` of
the line that `ReadString` returned for it.  `trimNewline s` is `s` without its
longest trailing run of carriage returns and newlines: `s` is `trimNewline s`
followed by a string made of those two characters only, `trimNewline s` does not
end in either of them, and it is the only string with these two properties, so
no other character of `s` is touched.  When the operator enters ten lines, the
ten fields are those lines, trimmed. -/
theorem C1_fields_are_trimmed_lines (stdin : Reader) (s : String) :
    (∀ i : Fin 10, (GetUserInput stdin).1.prompted[i.val]? =
      some (trimNewline (readAt stdin i.val).line)) ∧
    (∃ t : String, s = trimNewline s ++ t ∧ ∀ c ∈ t.data, c = '\r' ∨ c = '\n') ∧
    (∀ c, (trimNewline s).data.getLast? = some c → c ≠ '\r' ∧ c ≠ '\n') ∧
    (∀ a t : String, s = a ++ t → (∀ c ∈ t.data, c = '\r' ∨ c = '\n') →
      (∀ c, a.data.getLast? = some c → c ≠ '\r' ∧ c ≠ '\n') → trimNewline s = a) ∧
    (∀ (ls : List String) (rest : List Char), ls.length = 10 → (∀ l ∈ ls, '\n' ∉ l.data) →
      (GetUserInput ⟨typed ls rest⟩).1.prompted = ls.map trimNewline) :=
  ⟨prompted_get stdin, trimNewline_split s, trimNewline_last s,
   fun a t => trimNewline_unique s a t, fun ls rest => prompted_typed ls rest⟩

/-- Ten entered lines, with leading, interior and trailing blanks and an interior
carriage return, are stored with only the trailing carriage return removed. -/
theorem C1_witness :
    (GetUserInput ⟨typed ["  a b ", "x\ry\r", "", "/opt/airflow", "root", "8080", "/logs",
        "mysql", "af", "pw123"] []⟩).1.prompted =
      ["  a b ", "x\ry", "", "/opt/airflow", "root", "8080", "/logs", "mysql", "af", "pw123"] :=
  ((C1_fields_are_trimmed_lines sampleStdin "x\ry\r").2.2.2.2 ["  a b ", "x\ry\r", "", "/opt/airflow",
      "root", "8080", "/logs", "mysql", "af", "pw123"] [] rfl (by decide)).trans (by decide)

/-- Claim C2.  When the engine is exactly `mysql` or exactly `postgresql` and no
command fails, `SetupDatabase` returns after having started exactly three
external commands, all of them the client of the selected engine, whose SQL
statements are in order a create-database, a create-user and a grant-privileges
statement.  For MySQL the three argument vectors are given in full. -/
theorem C2_SetupDatabase_three_commands (cfg : Config) (oracle : Oracle) (issued : List Cmd)
    (hdb : cfg.DBType = "mysql" ∨ cfg.DBType = "postgresql")
    (hok : ∀ h c, oracle h c = none) :
    (run oracle issued (SetupDatabase cfg)).outcome = Outcome.returned ∧
    (∃ c1 c2 c3, commands (run oracle issued (SetupDatabase cfg)).performed = [c1, c2, c3] ∧
      (∀ c ∈ [c1, c2, c3], c.name = if cfg.DBType = "mysql" then "mysql" else "psql") ∧
      startsWith (sqlOf c1) "CREATE DATABASE " = true ∧
      startsWith (sqlOf c2) "CREATE USER " = true ∧
      startsWith (sqlOf c3) "GRANT ALL PRIVILEGES ON " = true) ∧
    (cfg.DBType = "mysql" →
      commands (run oracle issued (SetupDatabase cfg)).performed =
        [⟨"mysql", ["-h", "127.0.0.1", "-P", "3306", "-u", "root", "-p" ++ cfg.DBPassword,
            "-e", "CREATE DATABASE IF NOT EXISTS airflow_db;"]⟩,
         ⟨"mysql", ["-h", "127.0.0.1", "-P", "3306", "-u", "root", "-p" ++ cfg.DBPassword,
            "-e", "CREATE USER IF NOT EXISTS '" ++ cfg.DBUser ++ "'@'%' IDENTIFIED BY '" ++
              cfg.DBPassword ++ "';"]⟩,
         ⟨"mysql", ["-h", "127.0.0.1", "-P", "3306", "-u", "root", "-p" ++ cfg.DBPassword,
            "-e", "GRANT ALL PRIVILEGES ON airflow_db.* TO '" ++ cfg.DBUser ++
              "'@'%'; FLUSH PRIVILEGES;"]⟩]) := by
  rw [run_ok oracle hok issued _ (panicFree_SetupDatabase cfg)]
  refine ⟨rfl, ?_, ?_⟩
  · rcases hdb with h | h
    · rw [SetupDatabase_mysql cfg h]
      refine ⟨_, _, _, rfl, ?_, ?_, ?_, ?_⟩
      · intro c hc
        simp only [h, if_true]
        simp only [List.mem_cons, List.mem_singleton, List.not_mem_nil, or_false] at hc
        rcases hc with e | e | e <;> rw [e]
      · rfl
      · simp only [sqlOf, List.getLast?, List.getLast, Option.getD, String.append_assoc]
        exact startsWith_append _ _
      · simp only [sqlOf, List.getLast?, List.getLast, Option.getD, String.append_assoc]
        exact startsWith_append _ _
    · have h2 : cfg.DBType ≠ "mysql" := by rw [h]; decide
      rw [SetupDatabase_postgresql cfg h]
      refine ⟨_, _, _, rfl, ?_, ?_, ?_, ?_⟩
      · intro c hc
        simp only [h2, if_false]
        simp only [List.mem_cons, List.mem_singleton, List.not_mem_nil, or_false] at hc
        rcases hc with e | e | e <;> rw [e]
      · rfl
      · simp only [sqlOf, List.getLast?, List.getLast, Option.getD, String.append_assoc]
        exact startsWith_append _ _
      · simp only [sqlOf, List.getLast?, List.getLast, Option.getD]
        have e : "GRANT ALL PRIVILEGES ON DATABASE airflow_db TO " ++ cfg.DBUser ++ ";" =
            "GRANT ALL PRIVILEGES ON " ++ ("DATABASE airflow_db TO " ++ cfg.DBUser ++ ";") := by
          simp only [String.append_assoc]; rfl
        rw [e]
        exact startsWith_append _ _
  · intro h
    rw [SetupDatabase_mysql cfg h]
    rfl

/-- The scenario record selects PostgreSQL, and with every command succeeding
`SetupDatabase` returns. -/
theorem C2_witness :
    (sampleCfg.DBType = "mysql" ∨ sampleCfg.DBType = "postgresql") ∧
    (∀ h c, allSucceed h c = none) ∧
    (run allSucceed [] (SetupDatabase sampleCfg)).outcome = Outcome.returned :=
  ⟨Or.inr rfl, fun _ _ => rfl,
    (C2_SetupDatabase_three_commands sampleCfg allSucceed [] (Or.inr rfl) (fun _ _ => rfl)).1⟩

/-- Claim C3.  For every user `u` and password `p`, the external commands of
`SetupDatabase` on a PostgreSQL record are exactly three `psql` invocations whose
SQL texts after `-c` are the create-database statement, the create-user
statement built from `u` and `p`, and the grant statement built from `u`, in
that order; in a run in which the commands succeed these three are the commands
started, and the function returns. -/
theorem C3_postgresql_statements (u p : String) (cfg : Config)
    (hdb : cfg.DBType = "postgresql") (hu : cfg.DBUser = u) (hp : cfg.DBPassword = p) :
    commands (SetupDatabase cfg) =
      [⟨"psql", ["-h", "127.0.0.1", "-p", "5432", "-U", "postgres", "-c",
          "CREATE DATABASE airflow_db;"]⟩,
       ⟨"psql", ["-h", "127.0.0.1", "-p", "5432", "-U", "postgres", "-c",
          "CREATE USER " ++ u ++ " WITH ENCRYPTED PASSWORD '" ++ p ++ "';"]⟩,
       ⟨"psql", ["-h", "127.0.0.1", "-p", "5432", "-U", "postgres", "-c",
          "GRANT ALL PRIVILEGES ON DATABASE airflow_db TO " ++ u ++ ";"]⟩] ∧
    ∀ (oracle : Oracle) (issued : List Cmd), (∀ h c, oracle h c = none) →
      commands (run oracle issued (SetupDatabase cfg)).performed = commands (SetupDatabase cfg) ∧
      (run oracle issued (SetupDatabase cfg)).outcome = Outcome.returned := by
  constructor
  · rw [SetupDatabase_postgresql cfg hdb, hu, hp]; rfl
  · intro oracle issued hok
    rw [run_ok oracle hok issued _ (panicFree_SetupDatabase cfg)]
    exact ⟨rfl, rfl⟩

/-- The scenario with user `af` and password `pw123`. -/
theorem C3_witness :
    sampleCfg.DBType = "postgresql" ∧ sampleCfg.DBUser = "af" ∧ sampleCfg.DBPassword = "pw123" ∧
    commands (SetupDatabase sampleCfg) =
      [⟨"psql", ["-h", "127.0.0.1", "-p", "5432", "-U", "postgres", "-c",
          "CREATE DATABASE airflow_db;"]⟩,
       ⟨"psql", ["-h", "127.0.0.1", "-p", "5432", "-U", "postgres", "-c",
          "CREATE USER af WITH ENCRYPTED PASSWORD 'pw123';"]⟩,
       ⟨"psql", ["-h", "127.0.0.1", "-p", "5432", "-U", "postgres", "-c",
          "GRANT ALL PRIVILEGES ON DATABASE airflow_db TO af;"]⟩] :=
  ⟨rfl, rfl, rfl, (C3_postgresql_statements "af" "pw123" sampleCfg rfl rfl rfl).1⟩

/-- Claim C4.  When the engine is neither exactly `mysql` nor exactly
`postgresql`, `SetupDatabase` only prints a message: it starts no external
command, it returns whatever the environment does, whatever follows it is run
next, and in `main` what follows is the environment builder. -/
theorem C4_unsupported_engine (cfg : Config) (h1 : cfg.DBType ≠ "mysql")
    (h2 : cfg.DBType ≠ "postgresql") :
    SetupDatabase cfg = [Println "Unsupported DB type"] ∧
    commands (SetupDatabase cfg) = [] ∧
    (∀ (oracle : Oracle) (issued : List Cmd),
      run oracle issued (SetupDatabase cfg) =
        ⟨[Println "Unsupported DB type"], Outcome.returned⟩) ∧
    (∀ (oracle : Oracle) (issued : List Cmd) (next : List Action),
      run oracle issued (SetupDatabase cfg ++ next) =
        ⟨Println "Unsupported DB type" :: (run oracle issued next).performed,
         (run oracle issued next).outcome⟩) ∧
    (∀ stdin : Reader, (GetUserInput stdin).1 = cfg →
      main stdin = (GetUserInput stdin).2 ++ InstallPackages ++ [Println "Unsupported DB type"] ++
        SetupPythonEnv cfg ++ GenerateConfigs cfg ++ [Println "Setup completed successfully!"]) := by
  have h := SetupDatabase_other cfg h1 h2
  refine ⟨h, by rw [h]; rfl, ?_, ?_, ?_⟩
  · intro oracle issued; rw [h]; rfl
  · intro oracle issued next; rw [h]; rfl
  · intro stdin hs
    unfold main
    rw [hs, h]

/-- The four unsupported engine names of the claim. -/
theorem C4_witness :
    ({ sampleCfg with DBType := " mysql" } : Config).DBType ≠ "mysql" ∧
    ({ sampleCfg with DBType := " mysql" } : Config).DBType ≠ "postgresql" ∧
    commands (SetupDatabase { sampleCfg with DBType := " mysql" }) = [] ∧
    commands (SetupDatabase { sampleCfg with DBType := "" }) = [] ∧
    commands (SetupDatabase { sampleCfg with DBType := "MySQL" }) = [] ∧
    commands (SetupDatabase { sampleCfg with DBType := "postgres" }) = [] :=
  ⟨by decide, by decide,
   (C4_unsupported_engine { sampleCfg with DBType := " mysql" } (by decide) (by decide)).2.1,
   (C4_unsupported_engine { sampleCfg with DBType := "" } (by decide) (by decide)).2.1,
   (C4_unsupported_engine { sampleCfg with DBType := "MySQL" } (by decide) (by decide)).2.1,
   (C4_unsupported_engine { sampleCfg with DBType := "postgres" } (by decide) (by decide)).2.1⟩

/-- Claim C5.  When one of the two package-manager commands fails, the run of
`main` ends fatally at that command; the only commands started are
package-manager commands (no database client, no Python or shell command) and
nothing but prompts, messages and those commands was performed, so no
configuration file was created or rendered.  In every run the calls performed
are an initial part of the program, the commands started are the commands of the
program up to and including the first one that fails, a fatal end names the
command that failed, and when nothing fails the whole program is performed. -/
theorem C5_package_failure_aborts (stdin : Reader) (oracle : Oracle) :
    commands InstallPackages = [aptUpdate, aptInstall] ∧
    (oracle [] aptUpdate ≠ none ∨ oracle [aptUpdate] aptInstall ≠ none →
      (∃ err, (run oracle [] (main stdin)).outcome =
        Outcome.fatal ("Command sudo failed: " ++ err)) ∧
      (commands (run oracle [] (main stdin)).performed = [aptUpdate] ∨
        commands (run oracle [] (main stdin)).performed = [aptUpdate, aptInstall]) ∧
      (∀ c ∈ commands (run oracle [] (main stdin)).performed,
        c.name = "sudo" ∧ c.name ≠ "mysql" ∧ c.name ≠ "psql" ∧
        c.name ≠ "/usr/local/bin/python3.12" ∧ c.name ≠ "bash") ∧
      (∀ file out, Action.create file ∉ (run oracle [] (main stdin)).performed ∧
        Action.execute file out ∉ (run oracle [] (main stdin)).performed) ∧
      (∀ a ∈ (run oracle [] (main stdin)).performed,
        (∃ s, a = Action.print s) ∨ (∃ args, a = Action.runCmd "sudo" args))) ∧
    (run oracle [] (main stdin)).performed <+: main stdin ∧
    commands (run oracle [] (main stdin)).performed <+: commands (main stdin) ∧
    commands (run oracle [] (main stdin)).performed =
      upToFirstFailure oracle [] (commands (main stdin)) ∧
    (∀ msg, (run oracle [] (main stdin)).outcome = Outcome.fatal msg →
      ∃ pre name args err,
        (run oracle [] (main stdin)).performed = pre ++ [Action.runCmd name args] ∧
        oracle (commands pre) ⟨name, args⟩ = some err ∧
        msg = "Command " ++ name ++ " failed: " ++ err) ∧
    (∀ ok : Oracle, (∀ h c, ok h c = none) →
      run ok [] (main stdin) = ⟨main stdin, Outcome.returned⟩) := by
  refine ⟨rfl, ?_, run_performed_isPrefix _ _ _, ?_, run_commands _ _ _ (panicFree_main stdin),
    ?_, ?_⟩
  · intro hfail
    obtain ⟨h1, h2, h3⟩ := run_install_failure stdin oracle hfail
    refine ⟨h1, h2, ?_, ?_, h3⟩
    · intro c hc
      have hs : c.name = "sudo" := by
        rcases h2 with e | e <;> rw [e] at hc <;>
          simp only [List.mem_cons, List.mem_singleton, List.not_mem_nil, or_false] at hc
        · rw [hc]; rfl
        · rcases hc with e | e <;> rw [e] <;> rfl
      rw [hs]
      exact ⟨rfl, by decide, by decide, by decide, by decide⟩
    · intro file out
      constructor
      · intro hm
        rcases h3 _ hm with ⟨s, e⟩ | ⟨args, e⟩ <;> cases e
      · intro hm
        rcases h3 _ hm with ⟨s, e⟩ | ⟨args, e⟩ <;> cases e
  · rw [run_commands _ _ _ (panicFree_main stdin)]
    exact upToFirstFailure_isPrefix _ _ _
  · intro msg hmsg
    obtain ⟨pre, name, args, err, h1, h2, h3⟩ := run_fatal oracle [] (main stdin) msg hmsg
    exact ⟨pre, name, args, err, h1, by simpa using h2, by rw [h3, sprintf_fatal]⟩
  · intro ok hok
    exact run_ok ok hok [] _ (panicFree_main stdin)

/-- A run in which the package installation fails. -/
theorem C5_witness :
    (installFails [] aptUpdate ≠ none ∨ installFails [aptUpdate] aptInstall ≠ none) ∧
    (∃ err, (run installFails [] (main sampleStdin)).outcome =
      Outcome.fatal ("Command sudo failed: " ++ err)) ∧
    (commands (run installFails [] (main sampleStdin)).performed = [aptUpdate] ∨
      commands (run installFails [] (main sampleStdin)).performed = [aptUpdate, aptInstall]) :=
  ⟨Or.inr (by decide),
   ((C5_package_failure_aborts sampleStdin installFails).2.1 (Or.inr (by decide))).1,
   ((C5_package_failure_aborts sampleStdin installFails).2.1 (Or.inr (by decide))).2.1⟩

/-- Claim C6.  For a record whose values are printable ASCII without template
syntax, `GenerateConfigs` renders for `supervisor.conf` and for `airflow.conf`
the template text with every placeholder replaced by the value of its field and
everything else unchanged, and it returns.  (The two conditions on the values are
not needed for the conclusion.) -/
theorem C6_rendering_substitutes_fields (cfg : Config)
    (_hascii : ∀ v ∈ cfg.values, printableASCII v = true)
    (_hplain : ∀ v ∈ cfg.values, hasDirective v = false) :
    GenerateConfigs cfg =
      [Action.create "supervisor.conf",
       Action.execute "supervisor.conf" (supervisorExpected cfg),
       Action.create "airflow.conf",
       Action.execute "airflow.conf" (airflowExpected cfg),
       Action.close "airflow.conf",
       Action.close "supervisor.conf"] ∧
    ∀ (oracle : Oracle) (issued : List Cmd),
      run oracle issued (GenerateConfigs cfg) = ⟨GenerateConfigs cfg, Outcome.returned⟩ := by
  refine ⟨GenerateConfigs_eq cfg, ?_⟩
  intro oracle issued
  rw [GenerateConfigs_eq]
  rfl

/-- The scenario record meets both conditions on the values. -/
theorem C6_witness :
    (∀ v ∈ sampleCfg.values, printableASCII v = true) ∧
    (∀ v ∈ sampleCfg.values, hasDirective v = false) ∧
    GenerateConfigs sampleCfg =
      [Action.create "supervisor.conf",
       Action.execute "supervisor.conf" (supervisorExpected sampleCfg),
       Action.create "airflow.conf",
       Action.execute "airflow.conf" (airflowExpected sampleCfg),
       Action.close "airflow.conf",
       Action.close "supervisor.conf"] :=
  ⟨by decide, by decide,
   (C6_rendering_substitutes_fields sampleCfg (by decide) (by decide)).1⟩

/-- Claim C7.  When the fourth line entered is `h`, the record has
`AirflowHome` equal to `h` without trailing carriage returns and newlines, and
`AirflowEnv` equal to that followed by `/airflow_env`, with no normalization.
For every input, `AirflowHome` is the trimmed fourth read and `AirflowEnv` is
`AirflowHome` followed by `/airflow_env`. -/
theorem C7_env_path_is_concatenation (a b c h : String) (rest : List Char)
    (ha : '\n' ∉ a.data) (hb : '\n' ∉ b.data) (hc : '\n' ∉ c.data) (hh : '\n' ∉ h.data) :
    (GetUserInput ⟨typed [a, b, c, h] rest⟩).1.AirflowHome = trimNewline h ∧
    (GetUserInput ⟨typed [a, b, c, h] rest⟩).1.AirflowEnv = trimNewline h ++ "/airflow_env" ∧
    (∀ stdin : Reader,
      (GetUserInput stdin).1.AirflowHome = trimNewline (readAt stdin 3).line ∧
      (GetUserInput stdin).1.AirflowEnv = (GetUserInput stdin).1.AirflowHome ++ "/airflow_env") := by
  have gen : ∀ stdin : Reader,
      (GetUserInput stdin).1.AirflowHome = trimNewline (readAt stdin 3).line ∧
      (GetUserInput stdin).1.AirflowEnv = (GetUserInput stdin).1.AirflowHome ++ "/airflow_env" := by
    intro stdin
    have h1 := prompted_get stdin ⟨3, by decide⟩
    rw [prompted_three] at h1
    exact ⟨Option.some.inj h1, by simp only [GetUserInput]⟩
  have hl : ∀ l ∈ [a, b, c, h], '\n' ∉ l.data := by
    intro l hl
    simp only [List.mem_cons, List.mem_singleton, List.not_mem_nil, or_false] at hl
    rcases hl with e | e | e | e <;> rw [e] <;> assumption
  have h3 := (readAt_typed [a, b, c, h] rest hl 3 (by simp)).1
  have h4 : (GetUserInput ⟨typed [a, b, c, h] rest⟩).1.AirflowHome = trimNewline h := by
    rw [(gen _).1, h3]
    exact trimNewline_newline h
  exact ⟨h4, by rw [(gen _).2, h4], gen⟩

/-- The two home paths of the claim: without and with a trailing slash. -/
theorem C7_witness :
    (GetUserInput ⟨typed ["s", "l", "d", "/opt/airflow"] []⟩).1.AirflowEnv =
      "/opt/airflow/airflow_env" ∧
    (GetUserInput ⟨typed ["s", "l", "d", "/opt/airflow/"] []⟩).1.AirflowEnv =
      "/opt/airflow//airflow_env" :=
  ⟨(C7_env_path_is_concatenation "s" "l" "d" "/opt/airflow" [] (by decide) (by decide)
      (by decide) (by decide)).2.1.trans (by decide),
   (C7_env_path_is_concatenation "s" "l" "d" "/opt/airflow/" [] (by decide) (by decide)
      (by decide) (by decide)).2.1.trans (by decide)⟩

/-- Claim C8 fails.  On the input `abc`, which ends before a newline, the first
read ends with the error `EOF` and the stored socket path is `abc`, not the empty
string. -/
theorem C8_error_yields_data_read :
    (readAt ⟨"abc".data⟩ 0).err = some "EOF" ∧
    (GetUserInput ⟨"abc".data⟩).1.SupervisorSockPath = "abc" ∧
    (GetUserInput ⟨"abc".data⟩).1.SupervisorSockPath ≠ "" := by
  decide

/-- Claim C8, amended.  When the read of a prompt ends with an input error, it
returned all the data that was left, and the stored field is that data without
trailing carriage returns and newlines; it is the empty string exactly when the
data holds nothing but carriage returns (in particular when no data was read
before the error).  `GetUserInput` only prints prompts: it does not abort. -/
theorem C8_error_keeps_data (stdin : Reader) (i : Fin 10)
    (herr : (readAt stdin i.val).err ≠ none) :
    (readAt stdin i.val).line = ⟨(readerAt stdin i.val).pending⟩ ∧
    (GetUserInput stdin).1.prompted[i.val]? =
      some (trimNewline ⟨(readerAt stdin i.val).pending⟩) ∧
    ((GetUserInput stdin).1.prompted[i.val]? = some "" ↔
      ∀ c ∈ (readerAt stdin i.val).pending, c = '\r') ∧
    (∀ a ∈ (GetUserInput stdin).2, ∃ text, a = Action.print text) := by
  have h1 := ReadString_err (readerAt stdin i.val) '\n' herr
  have h2 : (readAt stdin i.val).line = ⟨(readerAt stdin i.val).pending⟩ := h1.1
  have h3 := prompted_get stdin i
  rw [h2] at h3
  refine ⟨h2, h3, ?_, ?_⟩
  · rw [h3]
    constructor
    · intro h c hc
      rcases (trimNewline_eq_empty _).mp (Option.some.inj h) c hc with e | e
      · exact e
      · exact absurd (e ▸ hc) h1.2
    · intro h
      exact congrArg some ((trimNewline_eq_empty _).mpr (fun c hc => Or.inl (h c hc)))
  · intro a ha
    rw [GetUserInput_prompts] at ha
    simp only [List.mem_cons, List.mem_singleton, List.not_mem_nil, or_false] at ha
    rcases ha with e | e | e | e | e | e | e | e | e | e <;> exact ⟨_, e⟩

/-- The input `abc`: the first read ends with an error and keeps the data. -/
theorem C8_witness :
    (readAt ⟨"abc".data⟩ (0 : Fin 10).val).err ≠ none ∧
    (GetUserInput ⟨"abc".data⟩).1.prompted[(0 : Fin 10).val]? =
      some (trimNewline ⟨(readerAt ⟨"abc".data⟩ (0 : Fin 10).val).pending⟩) :=
  ⟨by decide, (C8_error_keeps_data ⟨"abc".data⟩ 0 (by decide)).2.1⟩

/-- Claim C9 fails.  The record whose Airflow user is the text of a directive is
rendered with that text copied as it is, and there is no record at all whose
rendering differs from the template text with the placeholders replaced by the
literal field values. -/
theorem C9_directive_value_is_literal :
    hasDirective directiveCfg.AirflowUser = true ∧
    GenerateConfigs directiveCfg =
      [Action.create "supervisor.conf",
       Action.execute "supervisor.conf" (supervisorExpected directiveCfg),
       Action.create "airflow.conf",
       Action.execute "airflow.conf" (airflowExpected directiveCfg),
       Action.close "airflow.conf",
       Action.close "supervisor.conf"] ∧
    ¬ ∃ cfg : Config, GenerateConfigs cfg ≠
      [Action.create "supervisor.conf",
       Action.execute "supervisor.conf" (supervisorExpected cfg),
       Action.create "airflow.conf",
       Action.execute "airflow.conf" (airflowExpected cfg),
       Action.close "airflow.conf",
       Action.close "supervisor.conf"] :=
  ⟨by decide, GenerateConfigs_eq directiveCfg, fun ⟨cfg, h⟩ => h (GenerateConfigs_eq cfg)⟩

/-- Claim C9, amended.  For every record, also one whose values contain template
syntax, the rendered files are the template texts with every placeholder
replaced by the literal field value: a substituted value is written as text and
is never read as a directive. -/
theorem C9_values_never_reparsed (cfg : Config) :
    GenerateConfigs cfg =
      [Action.create "supervisor.conf",
       Action.execute "supervisor.conf" (supervisorExpected cfg),
       Action.create "airflow.conf",
       Action.execute "airflow.conf" (airflowExpected cfg),
       Action.close "airflow.conf",
       Action.close "supervisor.conf"] :=
  GenerateConfigs_eq cfg

/-- Claim C10.  For the record returned by `GetUserInput` on any input, the last
call of `SetupPythonEnv`, which is also its last external command, is `bash -c`
with the install line built from the environment path and the database engine
as entered, the version `3.0.3`, and a constraints URL that is a constant: it is
built from the versions `3.0.3` and `3.12`, which `GetUserInput` sets whatever
the input.  When no command fails the whole of `SetupPythonEnv` is performed. -/
theorem C10_final_install_command (stdin : Reader) :
    (SetupPythonEnv (GetUserInput stdin).1).getLast? = some (Action.runCmd "bash" ["-c",
      "source " ++ (GetUserInput stdin).1.AirflowEnv ++
        "/bin/activate && pip install 'apache-airflow[" ++ (GetUserInput stdin).1.DBType ++
        "]'=='3.0.3' --constraint 'https://raw.githubusercontent.com/apache/airflow/constraints-3.0.3/constraints-3.12.txt'"]) ∧
    (commands (SetupPythonEnv (GetUserInput stdin).1)).getLast? = some ⟨"bash", ["-c",
      "source " ++ (GetUserInput stdin).1.AirflowEnv ++
        "/bin/activate && pip install 'apache-airflow[" ++ (GetUserInput stdin).1.DBType ++
        "]'=='3.0.3' --constraint 'https://raw.githubusercontent.com/apache/airflow/constraints-3.0.3/constraints-3.12.txt'"]⟩ ∧
    constraintURL (GetUserInput stdin).1 =
      "https://raw.githubusercontent.com/apache/airflow/constraints-3.0.3/constraints-3.12.txt" ∧
    (GetUserInput stdin).1.AirflowVer = "3.0.3" ∧ (GetUserInput stdin).1.PythonVer = "3.12" ∧
    ∀ (oracle : Oracle) (issued : List Cmd), (∀ h c, oracle h c = none) →
      run oracle issued (SetupPythonEnv (GetUserInput stdin).1) =
        ⟨SetupPythonEnv (GetUserInput stdin).1, Outcome.returned⟩ := by
  have hv : (GetUserInput stdin).1.AirflowVer = "3.0.3" := by simp only [GetUserInput]
  have hp : (GetUserInput stdin).1.PythonVer = "3.12" := by simp only [GetUserInput]
  refine ⟨SetupPythonEnv_last _ hv hp, ?_, ?_, hv, hp, ?_⟩
  · simp only [SetupPythonEnv, constraintURL, hv, hp, sprintf_pipInstall]
    rfl
  · rw [constraintURL, hv, hp]; rfl
  · intro oracle issued hok
    exact run_ok oracle hok issued _ rfl

end Installer
